import Mathlib

/-!
Verification of the MitreAtlas coverage-scoring pipeline (`mitreatlas.py`).

The JSON documents the script consumes are modelled by Lean structures whose
fields are `Option`-valued exactly where the Python code accesses them through
`dict.get` (an absent key is `none`).  Python `set`s of external-ID values are
modelled as `Finset (Option String)`: the script can insert `None` into such a
set (when an external reference lacks an `external_id`), which is modelled by
the element `none`.  Python dicts keyed by tactic shortname are modelled as
functions from `String`, together with an explicit `Finset` of keys; a lookup
of an absent key is `Option.none`.  Fallible Python code (list indexing that
can raise `IndexError`) is modelled with `Except String`.  Floats are
idealised as rationals; Python's `round` (banker's rounding, round half to
even) is modelled exactly on rationals.
-/

namespace MitreAtlas

/-- One element of an `external_references` array; only the `external_id`
field is ever read by the script. -/
structure ExternalRef where
  external_id : Option String
deriving DecidableEq

/-- One element of a `kill_chain_phases` array; only `phase_name` is read. -/
structure KillChainPhase where
  phase_name : Option String
deriving DecidableEq

/-- A STIX object of the corpus, restricted to the fields the script reads.
A field is `none` when the corresponding JSON key is absent. -/
structure AttackObj where
  type : Option String
  revoked : Option Bool
  x_mitre_is_subtechnique : Option Bool
  external_references : Option (List ExternalRef)
  kill_chain_phases : Option (List KillChainPhase)
  name : Option String
  description : Option String
deriving DecidableEq

/-- The ATT&CK corpus document: a JSON object whose `objects` key (possibly
absent) holds the array of STIX objects. -/
structure Corpus where
  objects : Option (List AttackObj)
deriving DecidableEq

/-- `mitre_data.get("objects", [])` — the object array, defaulting to empty. -/
def Corpus.objs (c : Corpus) : List AttackObj := c.objects.getD []

/-- A match record as written to the results file by `mitre_semantic`:
`id`, `name`, `phases` always present, `score` optional.  (The aggregator
reads `match["id"]` and `match.get("phases", [])`; a results file lacking
the `phases` key behaves as `phases = []`, which this model folds into the
field itself.) -/
structure Match where
  id : String
  name : String
  phases : List String
  score : Option ℚ
deriving DecidableEq

/-- One entry of the results file: one use case and its ranked matches. -/
structure MatchEntry where
  usecase : String
  description : String
  «matches» : List Match
deriving DecidableEq

/-- A technique record produced by `extract_techniques`. -/
structure Technique where
  id : String
  name : String
  description : String
  phases : List String
deriving DecidableEq

/-- One per-tactic row of the coverage mapping built by
`calculate_coverage_per_tactic`. -/
structure TacticCoverage where
  matched : ℕ
  total : ℕ
  coverage_percent : ℚ
deriving DecidableEq

/-- A use case from the input file (`name` and `description`). -/
structure UseCase where
  name : String
  description : String
deriving DecidableEq

/-- Python's `round` on rationals: round half to even (banker's rounding). -/
def roundHalfEven (q : ℚ) : ℤ :=
  if q - ⌊q⌋ < 1/2 then ⌊q⌋
  else if 1/2 < q - ⌊q⌋ then ⌊q⌋ + 1
  else if 2 ∣ ⌊q⌋ then ⌊q⌋ else ⌊q⌋ + 1

/-- `round(x, 2)` on the rational idealisation of floats. -/
def pyRound2 (q : ℚ) : ℚ := (roundHalfEven (q * 100) : ℚ) / 100

/-- `round(x, 3)` on the rational idealisation of floats. -/
def pyRound3 (q : ℚ) : ℚ := (roundHalfEven (q * 1000) : ℚ) / 1000

/-- The tactic shortnames of an object:
`[p["phase_name"] for p in obj.get("kill_chain_phases", []) if "phase_name" in p]`
(source line 155). -/
def subPhases (o : AttackObj) : List String :=
  (o.kill_chain_phases.getD []).filterMap (fun p => p.phase_name)

/-- The filter on source lines 150-151:
`obj.get("type") == "attack-pattern" and not obj.get("revoked", False)
and obj.get("x_mitre_is_subtechnique", False)`. -/
def isSubtechniqueObj (o : AttackObj) : Bool :=
  o.type == some "attack-pattern" && !(o.revoked.getD false)
    && o.x_mitre_is_subtechnique.getD false

/-- The guard on source line 153, `if external_refs and isinstance(external_refs, list)`,
for a corpus whose `external_references` values are JSON arrays: the key is
present (or defaulted) with a non-empty list. -/
def hasNonemptyRefs (o : AttackObj) : Bool :=
  !(o.external_references.getD []).isEmpty

/-- `external_refs[0].get("external_id")` (source line 154): the value added to
the per-tactic set, which is `None` (`none`) when the first reference lacks an
`external_id`, and also `none` when there is no first reference (in the source
that case is cut off by the `hasNonemptyRefs` guard before this is evaluated). -/
def firstRefId (o : AttackObj) : Option String :=
  ((o.external_references.getD []).head?).bind (fun r => r.external_id)

/-- `load_subtechniques_by_tactic` (source lines 146-158), read at one tactic
`t`: the set of values `external_refs[0].get("external_id")` over all
non-revoked sub-technique objects with a non-empty reference list whose
`kill_chain_phases` contain `t`.  The Python `defaultdict(set)` keyed by
tactic is modelled as this function of `t`; its key set is `tacticKeys`. -/
def load_subtechniques_by_tactic (c : Corpus) (t : String) : Finset (Option String) :=
  ((c.objs.filter
      (fun o => isSubtechniqueObj o && hasNonemptyRefs o && (subPhases o).contains t)).map
    firstRefId).toFinset

/-- The key set of the dict built by `load_subtechniques_by_tactic`: a key is
created exactly when some qualifying object fans out to that phase. -/
def tacticKeys (c : Corpus) : Finset String :=
  ((c.objs.filter (fun o => isSubtechniqueObj o && hasNonemptyRefs o)).flatMap
    subPhases).toFinset

/-- The test `"." in tid` (source line 166) on the character list of the id. -/
def isDotted (s : String) : Bool := s.data.contains '.'

/-- `extract_matched_subtechniques_by_tactic` (source lines 161-169), read at
one tactic `t`: the set of ids of matches containing a `'.'` whose `phases`
contain `t`, over all matches of all entries.  The `defaultdict(set)` is again
modelled as a function of the tactic; `matched_subs.get(tactic, set())` on an
absent key yields `∅`, which this function returns for such a tactic. -/
def extract_matched_subtechniques_by_tactic (results : List MatchEntry) (t : String) :
    Finset String :=
  (((results.flatMap (fun e => e.«matches»)).filter
      (fun m => isDotted m.id && m.phases.contains t)).map (fun m => m.id)).toFinset

/-- The loop body of `calculate_coverage_per_tactic` (source lines 185-192):
`score = (len(matched_ids) / len(total_ids)) * 100 if total_ids else 0`,
then `matched`, `total`, and `coverage_percent = round(score, 2)`. -/
def coverageEntry (matched_ids : Finset String) (total_ids : Finset (Option String)) :
    TacticCoverage :=
  { matched := matched_ids.card
    total := total_ids.card
    coverage_percent :=
      pyRound2 (if total_ids ≠ ∅ then ((matched_ids.card : ℚ) / (total_ids.card : ℚ)) * 100
                else 0) }

/-- `calculate_coverage_per_tactic` (source lines 172-194) on the two parsed
documents, as a lookup function: the returned dict has one entry per key of
`total_subs` (the tactics of `tacticKeys`), pairing the matched set obtained
via `matched_subs.get(tactic, set())` with the total set; any other tactic is
absent (`none`). -/
def calculate_coverage_per_tactic (c : Corpus) (results : List MatchEntry) (t : String) :
    Option TacticCoverage :=
  if t ∈ tacticKeys c then
    some (coverageEntry (extract_matched_subtechniques_by_tactic results t)
      (load_subtechniques_by_tactic c t))
  else none

/-- The per-object body of `extract_techniques` (source lines 200-207):
`obj.get("external_references", [{}])[0].get("external_id", "null")` builds the
id; indexing `[0]` raises `IndexError` when the key is present with an empty
list, while an absent key defaults to `[{}]` whose first element yields
`"null"`. -/
def techOf (o : AttackObj) : Except String Technique :=
  match o.external_references with
  | some [] => Except.error "list index out of range"
  | some (r :: _) =>
      Except.ok
        { id := r.external_id.getD "null"
          name := o.name.getD ""
          description := o.description.getD ""
          phases := (o.kill_chain_phases.getD []).map (fun p => p.phase_name.getD "") }
  | none =>
      Except.ok
        { id := "null"
          name := o.name.getD ""
          description := o.description.getD ""
          phases := (o.kill_chain_phases.getD []).map (fun p => p.phase_name.getD "") }

/-- The filter on source line 199:
`obj.get("type") == "attack-pattern" and not obj.get("revoked", False)`. -/
def isNonRevokedAP (o : AttackObj) : Bool :=
  o.type == some "attack-pattern" && !(o.revoked.getD false)

/-- `extract_techniques` (source lines 196-208) over the object array of a
corpus: one record per non-revoked attack-pattern, in order; the first
`IndexError` aborts the whole extraction. -/
def extract_techniques_list : List AttackObj → Except String (List Technique)
  | [] => Except.ok []
  | o :: os =>
      if isNonRevokedAP o then
        match techOf o with
        | Except.error e => Except.error e
        | Except.ok tech => (extract_techniques_list os).map (fun ts => tech :: ts)
      else extract_techniques_list os

/-- `extract_techniques(data)` with `data.get("objects", [])`. -/
def extract_techniques (c : Corpus) : Except String (List Technique) :=
  extract_techniques_list c.objs

/-- The match constructed for one `(score, idx)` pair of `topk` inside
`mitre_semantic` (source lines 259-273): `tech = techniques[idx]` (an
out-of-range index would raise `IndexError`), then a dict without `score`
when `remove_score` is set, and with `score = round(score.item(), 3)`
otherwise.  The cosine-similarity scores produced by the external embedding
model are taken as abstract rational inputs (the model is an opaque
collaborator per the surrounding design). -/
def buildMatch (remove_score : Bool) (techniques : List Technique) (p : ℚ × ℕ) :
    Except String Match :=
  match techniques.get? p.2 with
  | none => Except.error "list index out of range"
  | some tech =>
      if remove_score then
        Except.ok { id := tech.id, name := tech.name, phases := tech.phases, score := none }
      else
        Except.ok { id := tech.id, name := tech.name, phases := tech.phases,
                    score := some (pyRound3 p.1) }

/-- The inner loop of `mitre_semantic` over the top-k `(score, idx)` pairs of
one use case, building its `matches` list in order. -/
def buildMatches (remove_score : Bool) (techniques : List Technique) :
    List (ℚ × ℕ) → Except String (List Match)
  | [] => Except.ok []
  | p :: ps => do
      let m ← buildMatch remove_score techniques p
      let rest ← buildMatches remove_score techniques ps
      pure (m :: rest)

/-- The `results` list assembled by `mitre_semantic` (source lines 249-279)
and written to the output file: one entry per use case, in input order, each
carrying the use case's name, its description and its built matches.  The
per-use-case top-k score/index pairs coming out of the embedding model are
abstract inputs, zipped with the use cases. -/
def mitre_semantic_results (remove_score : Bool) (techniques : List Technique) :
    List (UseCase × List (ℚ × ℕ)) → Except String (List MatchEntry)
  | [] => Except.ok []
  | (uc, top) :: rest => do
      let ms ← buildMatches remove_score techniques top
      let others ← mitre_semantic_results remove_score techniques rest
      pure ({ usecase := uc.name, description := uc.description, «matches» := ms } :: others)

/-- Per the spec's coverage formula: `100 × |matched ∩ tactic| / |total for tactic|`
rounded to 2 decimals, with a zero result when the tactic has no
sub-techniques: the matched ids for the tactic are first intersected with the
tactic's total id set.  Written from the spec's words, to be compared with the
source's `calculate_coverage_per_tactic`. -/
def specCoveragePercent (c : Corpus) (results : List MatchEntry) (t : String) : ℚ :=
  let total := load_subtechniques_by_tactic c t
  let matched := (extract_matched_subtechniques_by_tactic results t).filter
    (fun s => some s ∈ total)
  if total ≠ ∅ then pyRound2 (100 * (matched.card : ℚ) / (total.card : ℚ)) else 0

/-- Per the spec's words for `extract_techniques`: `id` is the first external
reference's `external_id` if present else `"null"`, never an error.  Total
counterpart of `techOf`, to be compared with it. -/
def specTechOf (o : AttackObj) : Technique :=
  { id := match o.external_references with
          | some (r :: _) => r.external_id.getD "null"
          | _ => "null"
    name := o.name.getD ""
    description := o.description.getD ""
    phases := (o.kill_chain_phases.getD []).map (fun p => p.phase_name.getD "") }

/-- Per the spec's words for `load_subtechniques_by_tactic`: the distinct
non-revoked sub-technique external IDs whose phases include the tactic — an
object whose first external reference carries no `external_id` contributes no
ID here.  To be compared with the size of the source's per-tactic set. -/
def specDistinctIds (c : Corpus) (t : String) : Finset String :=
  ((c.objs.filter (fun o => isSubtechniqueObj o && (subPhases o).contains t)).filterMap
    firstRefId).toFinset

/-- Per the claim on the coverage mapping's key set: the phase names occurring
in some non-revoked sub-technique's kill-chain phases, with no condition on
`external_references`.  To be compared with `tacticKeys`. -/
def specPhaseUniverse (c : Corpus) : Finset String :=
  ((c.objs.filter (fun o => isSubtechniqueObj o)).flatMap subPhases).toFinset

/-- Removing the `score` field of a match, keeping `id`, `name`, `phases`. -/
def stripScore (m : Match) : Match :=
  { id := m.id, name := m.name, phases := m.phases, score := none }

/-- Removing every `score` field of a results document. -/
def stripScores (es : List MatchEntry) : List MatchEntry :=
  es.map (fun e => { usecase := e.usecase, description := e.description,
                     «matches» := e.«matches».map stripScore })

/-! ### Helper lemmas -/

theorem le_roundHalfEven (q : ℚ) (n : ℤ) (h : (n : ℚ) ≤ q) : n ≤ roundHalfEven q := by
  unfold roundHalfEven
  have hf : n ≤ ⌊q⌋ := Int.le_floor.mpr h
  split
  · exact hf
  · split
    · omega
    · split <;> omega

theorem roundHalfEven_le (q : ℚ) (n : ℤ) (h : q ≤ (n : ℚ)) : roundHalfEven q ≤ n := by
  unfold roundHalfEven
  have hfl : (⌊q⌋ : ℚ) ≤ q := Int.floor_le q
  have hf : ⌊q⌋ ≤ n := by
    have := Int.floor_mono h
    simpa using this
  split
  · exact hf
  · rename_i h1
    have hlt : (⌊q⌋ : ℚ) < (n : ℚ) := by
      push_neg at h1
      linarith
    have hn : ⌊q⌋ < n := by exact_mod_cast hlt
    split
    · omega
    · split <;> omega

theorem mem_load_subtechniques (c : Corpus) (t : String) (x : Option String) :
    x ∈ load_subtechniques_by_tactic c t ↔
      ∃ o ∈ c.objs,
        (isSubtechniqueObj o && hasNonemptyRefs o && (subPhases o).contains t) = true ∧
          firstRefId o = x := by
  simp only [load_subtechniques_by_tactic, List.mem_toFinset, List.mem_map, List.mem_filter]
  constructor
  · rintro ⟨o, ⟨ho, hp⟩, hx⟩
    exact ⟨o, ho, hp, hx⟩
  · rintro ⟨o, ho, hp, hx⟩
    exact ⟨o, ⟨ho, hp⟩, hx⟩

theorem mem_tacticKeys (c : Corpus) (t : String) :
    t ∈ tacticKeys c ↔
      ∃ o ∈ c.objs,
        (isSubtechniqueObj o && hasNonemptyRefs o) = true ∧ t ∈ subPhases o := by
  simp only [tacticKeys, List.mem_toFinset, List.mem_flatMap, List.mem_filter]
  constructor
  · rintro ⟨o, ⟨ho, hp⟩, hm⟩
    exact ⟨o, ho, hp, hm⟩
  · rintro ⟨o, ho, hp, hm⟩
    exact ⟨o, ⟨ho, hp⟩, hm⟩

theorem mem_tacticKeys_iff_load_nonempty (c : Corpus) (t : String) :
    t ∈ tacticKeys c ↔ load_subtechniques_by_tactic c t ≠ ∅ := by
  rw [mem_tacticKeys, ← Finset.nonempty_iff_ne_empty]
  constructor
  · rintro ⟨o, ho, hp, hm⟩
    refine ⟨firstRefId o, (mem_load_subtechniques c t _).mpr ⟨o, ho, ?_, rfl⟩⟩
    simp only [Bool.and_eq_true] at hp ⊢
    exact ⟨hp, List.elem_iff.mpr hm⟩
  · rintro ⟨x, hx⟩
    obtain ⟨o, ho, hp, -⟩ := (mem_load_subtechniques c t x).mp hx
    simp only [Bool.and_eq_true] at hp
    exact ⟨o, ho, by simp [Bool.and_eq_true, hp.1.1, hp.1.2], List.elem_iff.mp hp.2⟩

theorem mem_extract_matched (results : List MatchEntry) (t : String) (s : String) :
    s ∈ extract_matched_subtechniques_by_tactic results t ↔
      ∃ e ∈ results, ∃ m ∈ e.«matches»,
        isDotted m.id = true ∧ t ∈ m.phases ∧ m.id = s := by
  simp only [extract_matched_subtechniques_by_tactic, List.mem_toFinset, List.mem_map,
    List.mem_filter, List.mem_flatMap, Bool.and_eq_true]
  constructor
  · rintro ⟨m, ⟨⟨e, he, hme⟩, hd, hc⟩, hid⟩
    exact ⟨e, he, m, hme, hd, List.elem_iff.mp hc, hid⟩
  · rintro ⟨e, he, m, hme, hd, hc, hid⟩
    exact ⟨m, ⟨⟨e, he, hme⟩, hd, List.elem_iff.mpr hc⟩, hid⟩

/-! ### Concrete inputs for claim C1 -/

/-- A non-revoked sub-technique `T1.1` of tactic `execution`. -/
def subObjC1 : AttackObj :=
  { type := some "attack-pattern", revoked := none, x_mitre_is_subtechnique := some true,
    external_references := some [{ external_id := some "T1.1" }],
    kill_chain_phases := some [{ phase_name := some "execution" }],
    name := some "sub one", description := some "d1" }

/-- A corpus whose only sub-technique for `execution` is `T1.1`. -/
def corpusC1 : Corpus := { objects := some [subObjC1] }

/-- A results document whose single match carries the dotted id `X.9`, which is
not among the corpus sub-technique ids, under tactic `execution`. -/
def resultsC1 : List MatchEntry :=
  [{ usecase := "u1", description := "du",
     «matches» := [{ id := "X.9", name := "other", phases := ["execution"], score := none }] }]

/-- The coverage row the code computes for `execution` on those two inputs. -/
def covC1 : TacticCoverage := { matched := 1, total := 1, coverage_percent := 100 }

theorem calcC1_eval :
    calculate_coverage_per_tactic corpusC1 resultsC1 "execution" = some covC1 := by
  rw [calculate_coverage_per_tactic, if_pos (by decide)]
  simp only [coverageEntry, covC1, Option.some.injEq, TacticCoverage.mk.injEq]
  have hM : (extract_matched_subtechniques_by_tactic resultsC1 "execution").card = 1 := by
    decide
  have hT : (load_subtechniques_by_tactic corpusC1 "execution").card = 1 := by decide
  have hT0 : load_subtechniques_by_tactic corpusC1 "execution" ≠ ∅ := by decide
  refine ⟨hM, hT, ?_⟩
  rw [if_pos hT0, hM, hT]
  norm_num [pyRound2, roundHalfEven]

/-- Claim C1 counterexample: on `corpusC1`/`resultsC1` the code reports
`coverage_percent = 100` for `execution`, while the claimed formula
`100 × |matched ∩ total| / |total|` (the spec-side `specCoveragePercent`)
gives `0`, because the matched id `X.9` is not intersected away. -/
theorem c1_counterexample :
    calculate_coverage_per_tactic corpusC1 resultsC1 "execution" = some covC1 ∧
    covC1.coverage_percent = 100 ∧
    specCoveragePercent corpusC1 resultsC1 "execution" = 0 ∧
    covC1.coverage_percent ≠ specCoveragePercent corpusC1 resultsC1 "execution" := by
  have hspec : specCoveragePercent corpusC1 resultsC1 "execution" = 0 := by
    rw [specCoveragePercent]
    have hI : ((extract_matched_subtechniques_by_tactic resultsC1 "execution").filter
        (fun s => some s ∈ load_subtechniques_by_tactic corpusC1 "execution")).card = 0 := by
      decide
    have hT : (load_subtechniques_by_tactic corpusC1 "execution").card = 1 := by decide
    have hT0 : load_subtechniques_by_tactic corpusC1 "execution" ≠ ∅ := by decide
    rw [if_pos hT0, hI, hT]
    norm_num [pyRound2, roundHalfEven]
  refine ⟨calcC1_eval, rfl, hspec, ?_⟩
  rw [hspec]
  norm_num [covC1]

/-- Claim C1 (amended): for every corpus and results document, every tactic
row produced by `calculate_coverage_per_tactic` has positive `total`, its
`matched` and `total` are the sizes of the extracted matched set and the total
set, and `coverage_percent` is `100 × matched / total` rounded to 2 decimals —
with the matched set NOT intersected with the total set. -/
theorem c1_amended_theorem (c : Corpus) (results : List MatchEntry) (t : String)
    (cov : TacticCoverage)
    (h : calculate_coverage_per_tactic c results t = some cov) :
    0 < cov.total ∧
    cov.matched = (extract_matched_subtechniques_by_tactic results t).card ∧
    cov.total = (load_subtechniques_by_tactic c t).card ∧
    cov.coverage_percent =
      pyRound2 (100 * ((extract_matched_subtechniques_by_tactic results t).card : ℚ) /
        ((load_subtechniques_by_tactic c t).card : ℚ)) := by
  rw [calculate_coverage_per_tactic] at h
  split at h
  case isTrue hk =>
    have hne := (mem_tacticKeys_iff_load_nonempty c t).mp hk
    injection h with h
    subst h
    refine ⟨Finset.card_pos.mpr (Finset.nonempty_iff_ne_empty.mpr hne), rfl, rfl, ?_⟩
    show pyRound2 _ = pyRound2 _
    rw [if_pos hne]
    congr 1
    ring
  case isFalse => exact absurd h (by simp)

/-- Witness for the amended claim C1 at the concrete inputs. -/
theorem c1_amended_witness :
    0 < covC1.total ∧
    covC1.matched = (extract_matched_subtechniques_by_tactic resultsC1 "execution").card ∧
    covC1.total = (load_subtechniques_by_tactic corpusC1 "execution").card ∧
    covC1.coverage_percent =
      pyRound2 (100 * ((extract_matched_subtechniques_by_tactic resultsC1 "execution").card : ℚ) /
        ((load_subtechniques_by_tactic corpusC1 "execution").card : ℚ)) :=
  c1_amended_theorem corpusC1 resultsC1 "execution" covC1 calcC1_eval

/-! ### Concrete inputs for claim C2 -/

/-- A corpus with the single sub-technique `T1.1` of tactic `execution`. -/
def corpusC2 : Corpus :=
  { objects := some
      [{ type := some "attack-pattern", revoked := none,
         x_mitre_is_subtechnique := some true,
         external_references := some [{ external_id := some "T1.1" }],
         kill_chain_phases := some [{ phase_name := some "execution" }],
         name := some "sub one", description := some "d1" }] }

/-- A results document with two distinct dotted match ids under `execution`,
neither of which is a corpus sub-technique id. -/
def resultsC2 : List MatchEntry :=
  [{ usecase := "u1", description := "du",
     «matches» :=
       [{ id := "A.1", name := "a", phases := ["execution"], score := none },
        { id := "B.2", name := "b", phases := ["execution"], score := none }] }]

/-- The coverage row the code computes for `execution`: 2 matched, 1 total. -/
def covC2 : TacticCoverage := { matched := 2, total := 1, coverage_percent := 200 }

theorem calcC2_eval :
    calculate_coverage_per_tactic corpusC2 resultsC2 "execution" = some covC2 := by
  rw [calculate_coverage_per_tactic, if_pos (by decide)]
  simp only [coverageEntry, covC2, Option.some.injEq, TacticCoverage.mk.injEq]
  have hM : (extract_matched_subtechniques_by_tactic resultsC2 "execution").card = 2 := by
    decide
  have hT : (load_subtechniques_by_tactic corpusC2 "execution").card = 1 := by decide
  have hT0 : load_subtechniques_by_tactic corpusC2 "execution" ≠ ∅ := by decide
  refine ⟨hM, hT, ?_⟩
  rw [if_pos hT0, hM, hT]
  norm_num [pyRound2, roundHalfEven]

/-- Claim C2 counterexample: on `corpusC2`/`resultsC2` the `execution` row has
`matched = 2 > 1 = total`, so `matched ≤ total` fails. -/
theorem c2_counterexample :
    calculate_coverage_per_tactic corpusC2 resultsC2 "execution" = some covC2 ∧
    ¬ covC2.matched ≤ covC2.total :=
  ⟨calcC2_eval, by decide⟩

/-- Claim C2 (amended): `matched ≤ total` holds for every tactic row provided
every matched sub-technique id for that tactic belongs to that tactic's total
id set (as is the case when the match results only name corpus sub-technique
ids under their own tactics). -/
theorem c2_amended_theorem (c : Corpus) (results : List MatchEntry) (t : String)
    (cov : TacticCoverage)
    (h : calculate_coverage_per_tactic c results t = some cov)
    (hsub : ∀ s ∈ extract_matched_subtechniques_by_tactic results t,
      some s ∈ load_subtechniques_by_tactic c t) :
    cov.matched ≤ cov.total := by
  rw [calculate_coverage_per_tactic] at h
  split at h
  case isTrue hk =>
    injection h with h
    subst h
    show (extract_matched_subtechniques_by_tactic results t).card ≤
      (load_subtechniques_by_tactic c t).card
    have himg : (extract_matched_subtechniques_by_tactic results t).image some ⊆
        load_subtechniques_by_tactic c t := by
      intro x hx
      obtain ⟨s, hs, rfl⟩ := Finset.mem_image.mp hx
      exact hsub s hs
    have hcard := Finset.card_le_card himg
    rwa [Finset.card_image_of_injective _ (Option.some_injective String)] at hcard
  case isFalse => exact absurd h (by simp)

/-- A results document matching exactly the corpus sub-technique `T1.1`. -/
def resultsC2W : List MatchEntry :=
  [{ usecase := "u1", description := "du",
     «matches» := [{ id := "T1.1", name := "sub one", phases := ["execution"],
                     score := none }] }]

/-- The coverage row for the well-scoped results: 1 matched of 1 total. -/
def covC2W : TacticCoverage := { matched := 1, total := 1, coverage_percent := 100 }

theorem calcC2W_eval :
    calculate_coverage_per_tactic corpusC2 resultsC2W "execution" = some covC2W := by
  rw [calculate_coverage_per_tactic, if_pos (by decide)]
  simp only [coverageEntry, covC2W, Option.some.injEq, TacticCoverage.mk.injEq]
  have hM : (extract_matched_subtechniques_by_tactic resultsC2W "execution").card = 1 := by
    decide
  have hT : (load_subtechniques_by_tactic corpusC2 "execution").card = 1 := by decide
  have hT0 : load_subtechniques_by_tactic corpusC2 "execution" ≠ ∅ := by decide
  refine ⟨hM, hT, ?_⟩
  rw [if_pos hT0, hM, hT]
  norm_num [pyRound2, roundHalfEven]

/-- Witness for the amended claim C2 at concrete inputs satisfying its
hypotheses. -/
theorem c2_amended_witness : covC2W.matched ≤ covC2W.total :=
  c2_amended_theorem corpusC2 resultsC2W "execution" covC2W calcC2W_eval (by decide)

/-! ### Concrete inputs for claim C3 -/

/-- A non-revoked attack-pattern whose `external_references` key is present
with an empty array. -/
def objC3 : AttackObj :=
  { type := some "attack-pattern", revoked := none, x_mitre_is_subtechnique := none,
    external_references := some [], kill_chain_phases := none,
    name := some "n3", description := none }

/-- A corpus containing only `objC3`. -/
def corpusC3 : Corpus := { objects := some [objC3] }

/-- Claim C3 counterexample: a non-revoked attack-pattern whose
`external_references` is present but empty makes `extract_techniques` raise an
`IndexError` (here: return an error), instead of yielding a record with id
`"null"`. -/
theorem c3_counterexample :
    objC3.type = some "attack-pattern" ∧
    objC3.revoked.getD false = false ∧
    objC3.external_references = some [] ∧
    extract_techniques corpusC3 = Except.error "list index out of range" :=
  ⟨rfl, rfl, rfl, rfl⟩

theorem extract_techniques_list_ok (l : List AttackObj)
    (h : ∀ o ∈ l, isNonRevokedAP o = true → o.external_references ≠ some []) :
    extract_techniques_list l = Except.ok ((l.filter isNonRevokedAP).map specTechOf) := by
  induction l with
  | nil => rfl
  | cons o os ih =>
    have ho := h o (List.mem_cons_self o os)
    have hos : ∀ o' ∈ os, isNonRevokedAP o' = true → o'.external_references ≠ some [] :=
      fun o' ho' => h o' (List.mem_cons_of_mem o ho')
    rw [extract_techniques_list]
    cases hP : isNonRevokedAP o with
    | false =>
      simp only [hP, Bool.false_eq_true, if_false, ih hos, List.filter_cons_of_neg]
      · simp [hP]
    | true =>
      have htech : techOf o = Except.ok (specTechOf o) := by
        rw [techOf, specTechOf]
        match hr : o.external_references with
        | none => rfl
        | some [] => exact absurd hr (ho hP)
        | some (r :: rs) => rfl
      simp only [hP, if_true, htech, ih hos, Except.map]
      rw [List.filter_cons_of_pos (by simp [hP]), List.map_cons]

/-- Claim C3 (amended): provided no non-revoked attack-pattern carries a
present-but-empty `external_references` array, `extract_techniques` succeeds
with one record per non-revoked attack-pattern in order, and the id of each
record is the first external reference's `external_id` when that is present
and `"null"` otherwise — `"null"` both when the key is absent and when the
first reference lacks an `external_id`. -/
theorem c3_amended_theorem (c : Corpus)
    (h : ∀ o ∈ c.objs, isNonRevokedAP o = true → o.external_references ≠ some []) :
    extract_techniques c = Except.ok ((c.objs.filter isNonRevokedAP).map specTechOf) :=
  extract_techniques_list_ok c.objs h

/-- A corpus exercising the benign cases: absent `external_references`, a first
reference without `external_id`, a resolvable id, a revoked object, and a
non-attack-pattern object. -/
def corpusC3W : Corpus :=
  { objects := some
      [{ type := some "attack-pattern", revoked := none, x_mitre_is_subtechnique := none,
         external_references := none,
         kill_chain_phases := some [{ phase_name := some "execution" }],
         name := some "noRefs", description := some "dA" },
       { type := some "attack-pattern", revoked := some false,
         x_mitre_is_subtechnique := none,
         external_references := some [{ external_id := none }],
         kill_chain_phases := none, name := some "noId", description := none },
       { type := some "attack-pattern", revoked := none, x_mitre_is_subtechnique := some true,
         external_references := some [{ external_id := some "T1059.001" }],
         kill_chain_phases := some [{ phase_name := some "execution" }],
         name := some "withId", description := some "dC" },
       { type := some "attack-pattern", revoked := some true,
         x_mitre_is_subtechnique := none, external_references := some [],
         kill_chain_phases := none, name := some "revokedOne", description := none },
       { type := some "x-mitre-tactic", revoked := none, x_mitre_is_subtechnique := none,
         external_references := none, kill_chain_phases := none,
         name := some "Execution", description := none }] }

/-- Witness for the amended claim C3 at the concrete corpus. -/
theorem c3_amended_witness :
    extract_techniques corpusC3W =
      Except.ok ((corpusC3W.objs.filter isNonRevokedAP).map specTechOf) :=
  c3_amended_theorem corpusC3W (by decide)

/-! ### Concrete inputs for claim C4 -/

/-- A technique record as produced by the corpus loader. -/
def techC4 : Technique :=
  { id := "T1059.001", name := "Cmd", description := "d", phases := ["execution"] }

/-- The match built for `techC4` at cosine similarity `-1/2`. -/
def matchC4 : Match :=
  { id := "T1059.001", name := "Cmd", phases := ["execution"], score := some (-(1/2)) }

/-- Claim C4 counterexample: at the admissible cosine similarity `-1/2`
(cosine similarity ranges over `[-1,1]`), the retained score is `-0.5`, which
is negative and hence not in `[0,1]`; no clamping is applied. -/
theorem c4_counterexample :
    buildMatch false [techC4] (-(1/2), 0) = Except.ok matchC4 ∧
    matchC4.score = some (-(1/2)) ∧ (-(1/2) : ℚ) < 0 := by
  refine ⟨?_, rfl, by norm_num⟩
  have hs : pyRound3 (-(1/2)) = -(1/2) := by norm_num [pyRound3, roundHalfEven]
  show Except.ok { id := "T1059.001", name := "Cmd", phases := ["execution"],
                   score := some (pyRound3 (-(1/2))) } = Except.ok matchC4
  rw [hs]
  rfl

/-- Claim C4 (amended): every score field retained by the match builder of
`mitre_semantic` equals the underlying cosine similarity rounded to 3 decimal
places, and when that similarity lies in `[-1,1]` (as cosine similarity does)
so does the rounded score; the interval `[0,1]` is not guaranteed. -/
theorem c4_amended_theorem (techniques : List Technique) (s : ℚ) (i : ℕ) (m : Match)
    (h : buildMatch false techniques (s, i) = Except.ok m)
    (h1 : -1 ≤ s) (h2 : s ≤ 1) :
    m.score = some (pyRound3 s) ∧ -1 ≤ pyRound3 s ∧ pyRound3 s ≤ 1 := by
  have hub : roundHalfEven (s * 1000) ≤ (1000 : ℤ) := by
    refine roundHalfEven_le _ _ ?_
    push_cast
    linarith
  have hlb : (-1000 : ℤ) ≤ roundHalfEven (s * 1000) := by
    refine le_roundHalfEven _ _ ?_
    push_cast
    linarith
  have hubq : ((roundHalfEven (s * 1000) : ℤ) : ℚ) ≤ 1000 := by exact_mod_cast hub
  have hlbq : (-1000 : ℚ) ≤ ((roundHalfEven (s * 1000) : ℤ) : ℚ) := by exact_mod_cast hlb
  refine ⟨?_, ?_, ?_⟩
  · rw [buildMatch] at h
    match hg : techniques.get? i with
    | none => rw [hg] at h; exact absurd h (by simp)
    | some tech =>
      rw [hg] at h
      have h' : Except.ok { id := tech.id, name := tech.name, phases := tech.phases,
                            score := some (pyRound3 s) } = Except.ok m := h
      injection h' with h'
      rw [← h']
  · rw [pyRound3]
    linarith
  · rw [pyRound3]
    linarith

/-- The match built for `techC4` at cosine similarity `1/2`. -/
def matchC4W : Match :=
  { id := "T1059.001", name := "Cmd", phases := ["execution"], score := some (1/2) }

theorem buildC4W_eval : buildMatch false [techC4] (1/2, 0) = Except.ok matchC4W := by
  have hs : pyRound3 (1/2) = 1/2 := by norm_num [pyRound3, roundHalfEven]
  show Except.ok { id := "T1059.001", name := "Cmd", phases := ["execution"],
                   score := some (pyRound3 (1/2)) } = Except.ok matchC4W
  rw [hs]
  rfl

/-- Witness for the amended claim C4 at cosine similarity `1/2`. -/
theorem c4_amended_witness :
    matchC4W.score = some (pyRound3 (1/2)) ∧ -1 ≤ pyRound3 (1/2) ∧ pyRound3 (1/2) ≤ 1 :=
  c4_amended_theorem [techC4] (1/2) 0 matchC4W buildC4W_eval (by norm_num) (by norm_num)

/-! ### Concrete inputs for claim C5 -/

/-- A corpus with a single non-revoked sub-technique of `execution` whose
first external reference lacks an `external_id`. -/
def corpusC5 : Corpus :=
  { objects := some
      [{ type := some "attack-pattern", revoked := none,
         x_mitre_is_subtechnique := some true,
         external_references := some [{ external_id := none }],
         kill_chain_phases := some [{ phase_name := some "execution" }],
         name := some "anon sub", description := none }] }

/-- Claim C5 counterexample: on `corpusC5` the per-tactic set for `execution`
has size 1 — it contains the `None` inserted for the missing `external_id` —
while the number of distinct non-revoked sub-technique external IDs whose
phases include `execution` is 0. -/
theorem c5_counterexample :
    (load_subtechniques_by_tactic corpusC5 "execution").card = 1 ∧
    (specDistinctIds corpusC5 "execution").card = 0 ∧ (1 : ℕ) ≠ 0 := by
  refine ⟨by decide, by decide, by decide⟩

theorem hasNonemptyRefs_of_firstRefId (o : AttackObj) (h : (firstRefId o).isSome = true) :
    hasNonemptyRefs o = true := by
  rw [firstRefId] at h
  rw [hasNonemptyRefs]
  match hl : o.external_references.getD [] with
  | [] => rw [hl] at h; exact absurd h (by simp)
  | r :: rs => rfl

theorem mem_specDistinctIds (c : Corpus) (t : String) (y : String) :
    y ∈ specDistinctIds c t ↔
      ∃ o ∈ c.objs,
        (isSubtechniqueObj o && (subPhases o).contains t) = true ∧
          firstRefId o = some y := by
  simp only [specDistinctIds, List.mem_toFinset, List.mem_filterMap, List.mem_filter]
  constructor
  · rintro ⟨o, ⟨ho, hp⟩, hy⟩
    exact ⟨o, ho, hp, hy⟩
  · rintro ⟨o, ho, hp, hy⟩
    exact ⟨o, ⟨ho, hp⟩, hy⟩

/-- Claim C5 (amended): the size of the per-tactic set equals the number of
distinct non-revoked sub-technique external IDs whose phases include the
tactic, provided every qualifying sub-technique's first external reference
actually carries an `external_id` (otherwise the inserted `None` is counted
as an extra element). -/
theorem c5_amended_theorem (c : Corpus) (t : String)
    (h : ∀ o ∈ c.objs,
      (isSubtechniqueObj o && hasNonemptyRefs o && (subPhases o).contains t) = true →
        (firstRefId o).isSome = true) :
    (load_subtechniques_by_tactic c t).card = (specDistinctIds c t).card := by
  have hset : load_subtechniques_by_tactic c t = (specDistinctIds c t).image some := by
    ext x
    rw [mem_load_subtechniques, Finset.mem_image]
    constructor
    · rintro ⟨o, ho, hp, hx⟩
      have hsome := h o ho hp
      obtain ⟨y, hy⟩ := Option.isSome_iff_exists.mp hsome
      refine ⟨y, (mem_specDistinctIds c t y).mpr ⟨o, ho, ?_, hy⟩, by rw [← hx, hy]⟩
      simp only [Bool.and_eq_true] at hp ⊢
      exact ⟨hp.1.1, hp.2⟩
    · rintro ⟨y, hy, rfl⟩
      obtain ⟨o, ho, hp, hid⟩ := (mem_specDistinctIds c t y).mp hy
      refine ⟨o, ho, ?_, hid⟩
      simp only [Bool.and_eq_true] at hp ⊢
      refine ⟨⟨hp.1, hasNonemptyRefs_of_firstRefId o (by rw [hid]; rfl)⟩, hp.2⟩
  rw [hset, Finset.card_image_of_injective _ (Option.some_injective String)]

/-- A corpus with two properly identified sub-techniques of `execution`. -/
def corpusC5W : Corpus :=
  { objects := some
      [{ type := some "attack-pattern", revoked := none,
         x_mitre_is_subtechnique := some true,
         external_references := some [{ external_id := some "T1.1" }],
         kill_chain_phases := some [{ phase_name := some "execution" }],
         name := some "s1", description := none },
       { type := some "attack-pattern", revoked := none,
         x_mitre_is_subtechnique := some true,
         external_references := some [{ external_id := some "T1.2" }],
         kill_chain_phases := some [{ phase_name := some "execution" },
                                    { phase_name := some "persistence" }],
         name := some "s2", description := none }] }

/-- Witness for the amended claim C5 at the concrete corpus. -/
theorem c5_amended_witness :
    (load_subtechniques_by_tactic corpusC5W "execution").card =
      (specDistinctIds corpusC5W "execution").card :=
  c5_amended_theorem corpusC5W "execution" (by decide)

/-! ### Claim C6 -/

/-- Claim C6: a match id that does not contain the character `'.'` is never
added to any tactic's matched set by `extract_matched_subtechniques_by_tactic`,
and therefore never contributes to any tactic's matched count. -/
theorem c6_theorem (results : List MatchEntry) (t : String) (s : String)
    (h : isDotted s = false) :
    s ∉ extract_matched_subtechniques_by_tactic results t := by
  intro hmem
  obtain ⟨e, -, m, -, hd, -, hid⟩ := (mem_extract_matched results t s).mp hmem
  rw [hid, h] at hd
  exact Bool.false_ne_true hd

/-- A results document containing both an undotted id (`T1059`) and a dotted
one under tactic `execution`. -/
def resultsC6 : List MatchEntry :=
  [{ usecase := "u1", description := "du",
     «matches» :=
       [{ id := "T1059", name := "top level", phases := ["execution"], score := none },
        { id := "T1059.001", name := "sub", phases := ["execution"], score := none }] }]

/-- Witness for claim C6: the undotted id `T1059` is not in the matched set for
`execution`, although a match carries it under that tactic. -/
theorem c6_witness :
    isDotted "T1059" = false ∧
    "T1059" ∉ extract_matched_subtechniques_by_tactic resultsC6 "execution" :=
  ⟨by decide, c6_theorem resultsC6 "execution" "T1059" (by decide)⟩

/-! ### Claim C7 -/

/-- Claim C7: the per-tactic row computation of `calculate_coverage_per_tactic`
guards the division — a tactic with an empty total sub-technique set gets
`coverage_percent` exactly `0`, never a division error. -/
theorem c7_theorem (matched_ids : Finset String) :
    (coverageEntry matched_ids ∅).coverage_percent = 0 := by
  rw [coverageEntry]
  norm_num [pyRound2, roundHalfEven]

/-! ### Claim C8 -/

theorem buildMatch_strip (techniques : List Technique) (p : ℚ × ℕ) :
    buildMatch true techniques p = (buildMatch false techniques p).map stripScore := by
  rw [buildMatch, buildMatch]
  match techniques.get? p.2 with
  | none => rfl
  | some tech => rfl

theorem buildMatches_strip (techniques : List Technique) (ps : List (ℚ × ℕ)) :
    buildMatches true techniques ps =
      (buildMatches false techniques ps).map (List.map stripScore) := by
  induction ps with
  | nil => rfl
  | cons p ps ih =>
    rw [buildMatches, buildMatches, buildMatch_strip, ih]
    match buildMatch false techniques p with
    | Except.error e => rfl
    | Except.ok m =>
      match buildMatches false techniques ps with
      | Except.error e => rfl
      | Except.ok ms => rfl

theorem mitre_semantic_results_strip (techniques : List Technique)
    (input : List (UseCase × List (ℚ × ℕ))) :
    mitre_semantic_results true techniques input =
      (mitre_semantic_results false techniques input).map stripScores := by
  induction input with
  | nil => rfl
  | cons h rest ih =>
    obtain ⟨uc, top⟩ := h
    rw [mitre_semantic_results, mitre_semantic_results, buildMatches_strip, ih]
    match buildMatches false techniques top with
    | Except.error e => rfl
    | Except.ok ms =>
      match mitre_semantic_results false techniques rest with
      | Except.error e => rfl
      | Except.ok es => rfl

theorem stripScores_score_none (es : List MatchEntry) (e : MatchEntry) (m : Match)
    (he : e ∈ stripScores es) (hm : m ∈ e.«matches») : m.score = none := by
  rw [stripScores] at he
  obtain ⟨e', -, rfl⟩ := List.mem_map.mp he
  obtain ⟨m', -, rfl⟩ := List.mem_map.mp hm
  rfl

/-- Claim C8: with `remove_score = true`, the results assembled by
`mitre_semantic` are exactly the `remove_score = false` results with every
`score` field removed — so no match of the output carries a score, and the
`id`, `name` and `phases` fields are as in the unsuppressed case. -/
theorem c8_theorem (techniques : List Technique)
    (input : List (UseCase × List (ℚ × ℕ))) :
    mitre_semantic_results true techniques input =
      (mitre_semantic_results false techniques input).map stripScores ∧
    ∀ entries, mitre_semantic_results true techniques input = Except.ok entries →
      ∀ e ∈ entries, ∀ m ∈ e.«matches», m.score = none := by
  refine ⟨mitre_semantic_results_strip techniques input, ?_⟩
  intro entries hok e he m hm
  rw [mitre_semantic_results_strip techniques input] at hok
  match hfa : mitre_semantic_results false techniques input with
  | Except.error err => rw [hfa] at hok; exact absurd hok (by simp [Except.map])
  | Except.ok es =>
    rw [hfa] at hok
    have hes : stripScores es = entries := by
      have : Except.ok (stripScores es) = Except.ok entries := hok
      injection this
    rw [← hes] at he
    exact stripScores_score_none es e m he hm

/-- The input of one use case whose single top match is `techC4` at cosine
similarity `1/2`. -/
def inputC8 : List (UseCase × List (ℚ × ℕ)) :=
  [({ name := "u", description := "d" }, [(1/2, 0)])]

/-- The score-suppressed match for `techC4`. -/
def matchC8 : Match :=
  { id := "T1059.001", name := "Cmd", phases := ["execution"], score := none }

/-- The single entry of the score-suppressed run on `inputC8`. -/
def entryC8 : MatchEntry :=
  { usecase := "u", description := "d", «matches» := [matchC8] }

/-- Witness for claim C8 at the concrete input: the suppressed run equals the
stripped unsuppressed run, and the concrete emitted match has no score. -/
theorem c8_witness :
    (mitre_semantic_results true [techC4] inputC8 =
      (mitre_semantic_results false [techC4] inputC8).map stripScores) ∧
    matchC8.score = none := by
  refine ⟨(c8_theorem [techC4] inputC8).1, ?_⟩
  exact (c8_theorem [techC4] inputC8).2 [entryC8] rfl entryC8 (List.mem_singleton.mpr rfl)
    matchC8 (List.mem_singleton.mpr rfl)

/-! ### Claim C9 -/

/-- Claim C9: `calculate_coverage_per_tactic` is a pure function of the two
parsed documents — equal corpus and results documents yield identical coverage
mappings, so running it twice on the same inputs gives the same output (the
source builds fresh dictionaries and never mutates its inputs; in this
embedding that purity is structural). -/
theorem c9_theorem (c c' : Corpus) (results results' : List MatchEntry)
    (hc : c = c') (hr : results = results') :
    calculate_coverage_per_tactic c results = calculate_coverage_per_tactic c' results' := by
  rw [hc, hr]

/-- Witness for claim C9: the coverage of the C1 documents computed twice. -/
theorem c9_witness :
    calculate_coverage_per_tactic corpusC1 resultsC1 =
      calculate_coverage_per_tactic corpusC1 resultsC1 :=
  c9_theorem corpusC1 corpusC1 resultsC1 resultsC1 rfl rfl

/-! ### Claim C10 -/

/-- A corpus with one non-revoked sub-technique of `execution` whose
`external_references` is present but empty. -/
def corpusC10 : Corpus :=
  { objects := some
      [{ type := some "attack-pattern", revoked := none,
         x_mitre_is_subtechnique := some true, external_references := some [],
         kill_chain_phases := some [{ phase_name := some "execution" }],
         name := some "refless sub", description := none }] }

/-- Claim C10 counterexample: `execution` occurs in a non-revoked
sub-technique's kill-chain phases of `corpusC10`, yet the coverage mapping has
no entry for it, because the sub-technique's empty reference list keeps it out
of the total universe. -/
theorem c10_counterexample :
    "execution" ∈ specPhaseUniverse corpusC10 ∧
    calculate_coverage_per_tactic corpusC10 [] "execution" = none := by
  refine ⟨by decide, ?_⟩
  rw [calculate_coverage_per_tactic, if_neg (by decide)]

/-- Claim C10 (amended): the coverage mapping has an entry for a tactic
exactly when some non-revoked sub-technique with a non-empty
`external_references` list carries that tactic among its kill-chain phases; a
tactic appearing only in match results, or only in sub-techniques without
references, is absent rather than reported with zero totals. -/
theorem c10_amended_theorem (c : Corpus) (results : List MatchEntry) (t : String) :
    (calculate_coverage_per_tactic c results t).isSome = true ↔
      ∃ o ∈ c.objs,
        (isSubtechniqueObj o && hasNonemptyRefs o) = true ∧ t ∈ subPhases o := by
  rw [← mem_tacticKeys, calculate_coverage_per_tactic]
  split
  case isTrue hk => simp [hk]
  case isFalse hk => simp [hk]

end MitreAtlas
